import Mathlib

/-!
Verification development for the Svelte `useChat` hook
(`packages/core/svelte/use-chat.ts`).

The development shallowly embeds the hook's core logic:

* a JSON value type and a runtime JSON parser standing for `JSON.parse`
  (numbers are kept as raw text; the chat code never inspects them);
* the message / request data model (`Message`, `ChatRequest`);
* the Streaming Request Engine `getStreamedResponse`, modelled as a pure
  function of an environment describing the fetch outcome and the sequence
  of stream-read events; its outputs are the list of message-list
  publications (`mutate` calls), instrumentation flags recording whether the
  rollback publication (`mutate(previousMessages)`) and the cooperative
  cancellation branch (`abortControllerRef === null`) were executed, and the
  result (the final assistant message, or the thrown error);
* the Request Orchestrator: `chatLoop` / `triggerRequest` (fuel-indexed,
  since the source's `while (true)` loop need not terminate), `stop`,
  `setMessages`, `reloadAction` and `appendRequest`, acting on an
  orchestrator state holding the process-wide keyed store, the observable
  message cell, the error cell, the loading flag and the abort-controller
  reference (modelled by its nullness).

Byte chunks are represented by their decoded text contribution (the chunk
decoder is a stateful UTF-8 decoder whose output per chunk is exactly that
contribution, and the engine only ever concatenates it).
-/

namespace UseChat

/-- A JSON runtime value, as produced by `JSON.parse`.  Numbers are kept as
their raw source text since the chat code never inspects numeric values. -/
inductive Json where
  | null : Json
  | bool (b : Bool) : Json
  | num (raw : String) : Json
  | str (s : String) : Json
  | arr (elems : List Json) : Json
  | obj (fields : List (String × Json)) : Json
  deriving Repr

/-- JSON whitespace. -/
def jsonWs (c : Char) : Bool :=
  c = ' ' || c = Char.ofNat 10 || c = Char.ofNat 9 || c = Char.ofNat 13

/-- The double-quote character. -/
def quoteChar : Char := Char.ofNat 34

/-- The backslash character. -/
def backslashChar : Char := Char.ofNat 92

/-- The opening-brace character. -/
def lbraceChar : Char := Char.ofNat 123

/-- The closing-brace character. -/
def rbraceChar : Char := Char.ofNat 125

/-- Drop leading JSON whitespace. -/
def skipWs : List Char → List Char
  | [] => []
  | c :: cs => if jsonWs c then skipWs cs else c :: cs

/-- Value of a hexadecimal digit. -/
def hexVal (c : Char) : Option Nat :=
  if 48 ≤ c.toNat ∧ c.toNat ≤ 57 then some (c.toNat - 48)
  else if 97 ≤ c.toNat ∧ c.toNat ≤ 102 then some (c.toNat - 87)
  else if 65 ≤ c.toNat ∧ c.toNat ≤ 70 then some (c.toNat - 55)
  else none

/-- Decode one escape sequence (the character after the backslash, plus any
following input it consumes). -/
def escChar (e : Char) (rest : List Char) : Option (Char × List Char) :=
  if e = quoteChar then some (quoteChar, rest)
  else if e = backslashChar then some (backslashChar, rest)
  else if e = '/' then some ('/', rest)
  else if e = 'n' then some (Char.ofNat 10, rest)
  else if e = 't' then some (Char.ofNat 9, rest)
  else if e = 'r' then some (Char.ofNat 13, rest)
  else if e = 'b' then some (Char.ofNat 8, rest)
  else if e = 'f' then some (Char.ofNat 12, rest)
  else if e = 'u' then
    match rest with
    | h1 :: h2 :: h3 :: h4 :: rest2 =>
      match hexVal h1, hexVal h2, hexVal h3, hexVal h4 with
      | some a, some b, some c, some d =>
        some (Char.ofNat (((a * 16 + b) * 16 + c) * 16 + d), rest2)
      | _, _, _, _ => none
    | _ => none
  else none

/-- Parse the body of a JSON string (input starts after the opening quote);
returns the decoded characters and the input after the closing quote. -/
def parseStringBody : Nat → List Char → Option (List Char × List Char)
  | 0, _ => none
  | _ + 1, [] => none
  | fuel + 1, c :: cs =>
    if c = quoteChar then some ([], cs)
    else if c = backslashChar then
      match cs with
      | [] => none
      | e :: cs2 =>
        match escChar e cs2 with
        | none => none
        | some (ch, rest) =>
          match parseStringBody fuel rest with
          | none => none
          | some (out, rem) => some (ch :: out, rem)
    else
      match parseStringBody fuel cs with
      | none => none
      | some (out, rem) => some (c :: out, rem)

/-- Characters that may appear in a JSON number token. -/
def numChar (c : Char) : Bool :=
  (48 ≤ c.toNat && c.toNat ≤ 57) || c = '-' || c = '+' || c = '.' || c = 'e' || c = 'E'

/-- The characters of the literal `true`. -/
def trueChars : List Char := ['t', 'r', 'u', 'e']

/-- The characters of the literal `false`. -/
def falseChars : List Char := ['f', 'a', 'l', 's', 'e']

/-- The characters of the literal `null`. -/
def nullChars : List Char := ['n', 'u', 'l', 'l']

mutual

/-- Parse one JSON value (after optional whitespace). -/
def parseValue : Nat → List Char → Option (Json × List Char)
  | 0, _ => none
  | fuel + 1, cs =>
    match skipWs cs with
    | [] => none
    | c :: cs2 =>
      if c = lbraceChar then parseObjBody fuel cs2
      else if c = '[' then parseArrBody fuel cs2
      else if c = quoteChar then
        match parseStringBody (cs2.length + 1) cs2 with
        | some (out, rem) => some (Json.str (String.mk out), rem)
        | none => none
      else if trueChars.isPrefixOf (c :: cs2) then
        some (Json.bool true, (c :: cs2).drop 4)
      else if falseChars.isPrefixOf (c :: cs2) then
        some (Json.bool false, (c :: cs2).drop 5)
      else if nullChars.isPrefixOf (c :: cs2) then
        some (Json.null, (c :: cs2).drop 4)
      else
        let digits := (c :: cs2).takeWhile numChar
        if digits.isEmpty then none
        else some (Json.num (String.mk digits), (c :: cs2).dropWhile numChar)

/-- Parse an object body (input starts after the opening brace). -/
def parseObjBody : Nat → List Char → Option (Json × List Char)
  | 0, _ => none
  | fuel + 1, cs =>
    match skipWs cs with
    | [] => none
    | c :: cs2 =>
      if c = rbraceChar then some (Json.obj [], cs2)
      else
        match parseMembersFrom fuel (c :: cs2) with
        | some (fields, rem) => some (Json.obj fields, rem)
        | none => none

/-- Parse one or more `key: value` members, consuming the closing brace. -/
def parseMembersFrom : Nat → List Char → Option (List (String × Json) × List Char)
  | 0, _ => none
  | fuel + 1, cs =>
    match skipWs cs with
    | [] => none
    | c :: cs2 =>
      if c = quoteChar then
        match parseStringBody (cs2.length + 1) cs2 with
        | none => none
        | some (keyChars, afterKey) =>
          match skipWs afterKey with
          | [] => none
          | colon :: afterColon =>
            if colon = ':' then
              match parseValue fuel afterColon with
              | none => none
              | some (v, afterVal) =>
                match skipWs afterVal with
                | [] => none
                | sep :: afterSep =>
                  if sep = ',' then
                    match parseMembersFrom fuel afterSep with
                    | some (fields, rem) =>
                      some ((String.mk keyChars, v) :: fields, rem)
                    | none => none
                  else if sep = rbraceChar then
                    some ([(String.mk keyChars, v)], afterSep)
                  else none
            else none
      else none

/-- Parse an array body (input starts after the opening bracket). -/
def parseArrBody : Nat → List Char → Option (Json × List Char)
  | 0, _ => none
  | fuel + 1, cs =>
    match skipWs cs with
    | [] => none
    | c :: cs2 =>
      if c = ']' then some (Json.arr [], cs2)
      else
        match parseElemsFrom fuel (c :: cs2) with
        | some (elems, rem) => some (Json.arr elems, rem)
        | none => none

/-- Parse one or more array elements, consuming the closing bracket. -/
def parseElemsFrom : Nat → List Char → Option (List Json × List Char)
  | 0, _ => none
  | fuel + 1, cs =>
    match parseValue fuel cs with
    | none => none
    | some (v, afterVal) =>
      match skipWs afterVal with
      | [] => none
      | sep :: afterSep =>
        if sep = ',' then
          match parseElemsFrom fuel afterSep with
          | some (elems, rem) => some (v :: elems, rem)
          | none => none
        else if sep = ']' then some ([v], afterSep)
        else none

end

/-- `JSON.parse`: parse a complete JSON document (trailing whitespace only). -/
def jsonParse (s : String) : Option Json :=
  match parseValue (s.length + 1) s.data with
  | some (j, rest) => if (skipWs rest).isEmpty then some j else none
  | none => none

/-- First binding of a key in an object's field list. -/
def lookupField : List (String × Json) → String → Option Json
  | [], _ => none
  | (k, v) :: rest, key => if k = key then some v else lookupField rest key

/-- JavaScript property access on a parsed JSON value: on an object, the last
binding of the key wins (as in `JSON.parse`); on anything else, `undefined`. -/
def jsonGetField : Json → String → Option Json
  | Json.obj fields, key => lookupField fields.reverse key
  | _, _ => none

/-! ## Data model -/

/-- Message roles. -/
inductive Role where
  | user : Role
  | assistant : Role
  | system : Role
  | function : Role
  deriving DecidableEq, Repr

/-- The runtime value held by a message's `function_call` field: while the
function call is streaming it is a raw string; after the final `JSON.parse`
it is whatever JSON value the parsed object's `function_call` property holds
(`FCField.val`; a JSON string value would again be a JavaScript string, so it
is represented by `FCField.str`). -/
inductive FCField where
  | str (s : String) : FCField
  | val (j : Json) : FCField
  deriving Repr

/-- A chat message. `createdAt` is an abstract timestamp. -/
structure Message where
  id : String
  createdAt : Nat
  role : Role
  content : String
  name : Option String := none
  function_call : Option FCField := none
  deriving Repr

/-- An ephemeral request descriptor (per-call `options` headers/body are not
modelled: no claim depends on request serialization). -/
structure ChatRequest where
  messages : List Message
  functions : Option (List Json) := none
  function_call : Option Json := none
  deriving Repr

/-- A JavaScript error value (`name` distinguishes abort errors). -/
structure JsError where
  name : String
  message : String
  deriving DecidableEq, Repr

/-! ## Streaming Request Engine environment -/

/-- One result of `reader.read()`: a chunk (represented by its decoded text
contribution), or a rejection of the awaited read (for example the
`AbortError` produced when the fetch is aborted mid-read).  The stream ends
(`done = true`) when the event list is exhausted. -/
inductive ReadEvent where
  | chunk (s : String) : ReadEvent
  | fail (e : JsError) : ReadEvent
  deriving Repr

/-- An HTTP response: status-ok flag, the text used for the error message on
a non-ok status, and the body (`none` models a missing body). -/
structure HttpResponse where
  ok : Bool
  bodyText : String
  body : Option (List ReadEvent)
  deriving Repr

/-- Outcome of `fetch`: rejection, or a response. -/
inductive FetchOutcome where
  | fail (e : JsError) : FetchOutcome
  | resp (r : HttpResponse) : FetchOutcome
  deriving Repr

/-- Environment of one `getStreamedResponse` call: the fetch outcome, whether
a registered `onResponse` callback throws (and with what), and the fresh
reply id / timestamp drawn from `nanoid()` / `new Date()`. -/
structure EngineEnv where
  fetch : FetchOutcome
  onResponseThrow : Option JsError := none
  replyId : String
  createdAt : Nat
  deriving Repr

/-- Output of one `getStreamedResponse` call: the sequence of message lists
passed to `mutate`, whether the rollback publication
(`mutate(previousMessages)`) was executed, whether the cooperative
cancellation branch (`abortControllerRef === null` inside the read loop) was
taken, and the result (final message, or thrown error). -/
structure EngineOut where
  muts : List (List Message)
  rolledBack : Bool
  softCancelled : Bool
  result : Except JsError Message
  deriving Repr

/-! ## Streaming Request Engine -/

/-- The literal function-call marker checked by
`streamedResponse.startsWith(...)` in the source. -/
def fcMarker : String := "\x7b\"function_call\":"

/-- Character-list prefix test. -/
def isPrefixChars : List Char → List Char → Bool
  | [], _ => true
  | _ :: _, [] => false
  | p :: ps, c :: cs => p = c && isPrefixChars ps cs

/-- JavaScript's `String.prototype.startsWith`: `s` starts with `p`. -/
def strStartsWith (s p : String) : Bool := isPrefixChars p.data s.data

/-- Per-chunk update of the in-progress assistant message (source lines
147-152): if the accumulator starts with the marker, the raw accumulator is
stored in `function_call`; otherwise it is stored in `content`. -/
def updateMsg (msg : Message) (acc : String) : Message :=
  if strStartsWith acc fcMarker then { msg with function_call := some (FCField.str acc) }
  else { msg with content := acc }

/-- How the engine's read loop ended. -/
inductive LoopEnd where
  | done : LoopEnd
  | cancelled : LoopEnd
  | failed (e : JsError) : LoopEnd
  deriving DecidableEq, Repr

/-- The engine's read loop (source lines 139-161).  `abortIsNull` is the
nullness of the `abortControllerRef` parameter; since the engine never
reassigns that parameter, its value is fixed for the whole call.  Returns the
final accumulator, the final in-progress message, the per-chunk publications,
and how the loop ended. -/
def readLoop (baseMsgs : List Message) (abortIsNull : Bool) :
    List ReadEvent → String → Message →
    String × Message × List (List Message) × LoopEnd
  | [], acc, msg => (acc, msg, [], LoopEnd.done)
  | ReadEvent.fail e :: _, acc, msg => (acc, msg, [], LoopEnd.failed e)
  | ReadEvent.chunk s :: rest, acc, msg =>
    let acc2 := acc ++ s
    let msg2 := updateMsg msg acc2
    let pub := baseMsgs ++ [msg2]
    if abortIsNull then (acc2, msg2, [pub], LoopEnd.cancelled)
    else
      match readLoop baseMsgs abortIsNull rest acc2 msg2 with
      | (a, m, pubs, endk) => (a, m, pub :: pubs, endk)

/-- Convert the JSON value found at `JSON.parse(text).function_call` into the
runtime value stored on the message. -/
def jsToFC : Json → FCField
  | Json.str s => FCField.str s
  | j => FCField.val j

/-- The assistant placeholder message created at the start of a streamed
response (source lines 132-137). -/
def initialAssistantMessage (rid : String) (cat : Nat) : Message :=
  { id := rid, createdAt := cat, content := "", role := Role.assistant }

/-- The Streaming Request Engine `getStreamedResponse` (source lines 55-178),
as a pure function of its environment.  `previousMessages` is the snapshot
used for rollback, and `abortIsNull` is the nullness of the
`abortControllerRef` argument at call time. -/
def getStreamedResponse (chatRequest : ChatRequest) (previousMessages : List Message)
    (abortIsNull : Bool) (env : EngineEnv) : EngineOut :=
  let optimistic := chatRequest.messages
  match env.fetch with
  | FetchOutcome.fail e =>
    { muts := [optimistic, previousMessages], rolledBack := true,
      softCancelled := false, result := Except.error e }
  | FetchOutcome.resp r =>
    match env.onResponseThrow with
    | some e =>
      { muts := [optimistic], rolledBack := false,
        softCancelled := false, result := Except.error e }
    | none =>
      if r.ok = false then
        { muts := [optimistic, previousMessages], rolledBack := true,
          softCancelled := false,
          result := Except.error
            { name := "Error",
              message := if r.bodyText = "" then "Failed to fetch the chat response."
                         else r.bodyText } }
      else
        match r.body with
        | none =>
          { muts := [optimistic], rolledBack := false, softCancelled := false,
            result := Except.error
              { name := "Error", message := "The response body is empty." } }
        | some events =>
          let msg0 : Message := initialAssistantMessage env.replyId env.createdAt
          match readLoop chatRequest.messages abortIsNull events "" msg0 with
          | (_, _, pubs, LoopEnd.failed e) =>
            { muts := optimistic :: pubs, rolledBack := false,
              softCancelled := false, result := Except.error e }
          | (acc, msg, pubs, endk) =>
            let softC : Bool := match endk with
              | LoopEnd.cancelled => true
              | _ => false
            if strStartsWith acc fcMarker then
              match jsonParse acc with
              | none =>
                { muts := optimistic :: pubs, rolledBack := false,
                  softCancelled := softC,
                  result := Except.error
                    { name := "SyntaxError", message := "Unexpected token in JSON" } }
              | some j =>
                let msg2 := { msg with
                  function_call := (jsonGetField j "function_call").map jsToFC }
                { muts := optimistic :: (pubs ++ [chatRequest.messages ++ [msg2]]),
                  rolledBack := false, softCancelled := softC,
                  result := Except.ok msg2 }
            else
              { muts := optimistic :: pubs, rolledBack := false,
                softCancelled := softC, result := Except.ok msg }

/-! ## Request Orchestrator -/

/-- Orchestrator state: the process-wide keyed store, the observable message
cell, the observable error cell, the loading flag, the nullness of the
module-level `abortController` reference, and (instrumentation) the ordered
trace of values written to `isLoading`. -/
structure OrchState where
  store : String → Option (List Message)
  cell : List Message
  errorState : Option JsError
  isLoading : Bool
  abortCtrl : Bool
  loadingWrites : List Bool

/-- The hook's `mutate` (source lines 208-211): writes the keyed store slot
and the observable cell with the same list. -/
def mutate (key : String) (st : OrchState) (msgs : List Message) : OrchState :=
  { st with
    store := fun k => if k = key then some msgs else st.store k,
    cell := msgs }

/-- Apply the engine's publications in order through `mutate`. -/
def applyMuts (key : String) (st : OrchState) (muts : List (List Message)) : OrchState :=
  List.foldl (mutate key) st muts

/-- `isLoading.set`, recording the write in the trace. -/
def setLoading (st : OrchState) (b : Bool) : OrchState :=
  { st with isLoading := b, loadingWrites := st.loadingWrites ++ [b] }

/-- The user-supplied `onFunctionCall` handler: receives the current message
list and the structured function call, and may return the next request. -/
abbrev FunctionCallHandler : Type := List Message → Json → Option ChatRequest

/-- How the orchestrator's `while (true)` loop exits. -/
inductive LoopExit where
  | success : LoopExit
  | failure (e : JsError) : LoopExit
  deriving Repr

/-- The `while (true)` loop of `triggerRequest` (source lines 225-266),
fuel-indexed because the source loop need not terminate.  Each iteration
calls the engine with `previousMessages = get(messages)` (the current cell)
and a non-null abort controller reference (`abortIsNull = false`: the
controller was just created and the engine parameter is never reassigned),
applies the publications, then decides: a result whose `function_call` is
absent or a raw string breaks the loop; a structured call is given to the
handler when one is registered (a handler returning nothing breaks, a
returned request is resubmitted); with no registered handler the loop
re-enters with the same request.  `envs i` is the environment of iteration
`i`. -/
def chatLoop (handler : Option FunctionCallHandler) (key : String)
    (envs : Nat → EngineEnv) :
    Nat → Nat → ChatRequest → OrchState → Option (LoopExit × OrchState)
  | 0, _, _, _ => none
  | fuel + 1, i, chatRequest, st =>
    let out := getStreamedResponse chatRequest st.cell false (envs i)
    let st2 := applyMuts key st out.muts
    match out.result with
    | Except.error e => some (LoopExit.failure e, st2)
    | Except.ok m =>
      match m.function_call with
      | none => some (LoopExit.success, st2)
      | some (FCField.str _) => some (LoopExit.success, st2)
      | some (FCField.val j) =>
        match handler with
        | none => chatLoop handler key envs fuel (i + 1) chatRequest st2
        | some h =>
          match h st2.cell j with
          | none => some (LoopExit.success, st2)
          | some nextReq => chatLoop handler key envs fuel (i + 1) nextReq st2

/-- The value an exchange resolves to: a string (last message's content),
`null` (cancellation), or `undefined` (error path / no request). -/
inductive RetVal where
  | str (s : String) : RetVal
  | null : RetVal
  | undef : RetVal
  deriving DecidableEq, Repr

/-- Result of a settled `triggerRequest` exchange. -/
structure RunResult where
  ret : RetVal
  st : OrchState

/-- `triggerRequest` (source lines 220-286): set loading, create the abort
controller, run the loop; on success clear the controller and resolve to the
last message's content (or the empty string); on an `AbortError` failure
clear the controller and resolve to `null` without touching the error cell;
on any other failure publish the error and resolve to `undefined` (the catch
block falls through without a return).  The `finally` clause clears the
loading flag on every settled path.  `none` models a non-settling exchange
(fuel exhausted). -/
def triggerRequest (handler : Option FunctionCallHandler) (key : String)
    (envs : Nat → EngineEnv) (fuel : Nat) (chatRequest : ChatRequest)
    (st : OrchState) : Option RunResult :=
  let st1 := { setLoading st true with abortCtrl := true }
  match chatLoop handler key envs fuel 0 chatRequest st1 with
  | none => none
  | some (LoopExit.success, st2) =>
    let st3 := { st2 with abortCtrl := false }
    let lastContent := (st3.cell.getLast?).elim "" Message.content
    some { ret := RetVal.str lastContent, st := setLoading st3 false }
  | some (LoopExit.failure e, st2) =>
    if e.name = "AbortError" then
      some { ret := RetVal.null, st := setLoading { st2 with abortCtrl := false } false }
    else
      some { ret := RetVal.undef,
             st := setLoading { st2 with errorState := some e } false }

/-- `stop` (source lines 322-327): if the abort controller reference is
non-null, abort it and clear the reference.  (The `abort()` call itself acts
through the fetch's signal, i.e. through the environment: the pending read
rejects with an `AbortError`.) -/
def stop (st : OrchState) : OrchState :=
  if st.abortCtrl then { st with abortCtrl := false } else st

/-- `setMessages` (source lines 329-331): direct publication via `mutate`. -/
def setMessages (key : String) (st : OrchState) (msgs : List Message) : OrchState :=
  mutate key st msgs

/-- Per-call request options (`functions` / `function_call` overrides; the
`options` headers/body field is not modelled). -/
structure ChatRequestOptions where
  functions : Option (List Json) := none
  function_call : Option Json := none
  deriving Repr

/-- What `reload` does before any request is issued: return `null` with no
request, return `undefined` with no request, or build and submit a request. -/
inductive ReloadAction where
  | noRequestNull : ReloadAction
  | noRequestUndef : ReloadAction
  | request (req : ChatRequest) : ReloadAction
  deriving Repr

/-- `reload` (source lines 303-320), as the decision it makes from the
current history: empty history returns `null`; a history whose last message
has the assistant role resubmits the history without that message; any other
history falls through and returns `undefined`. -/
def reloadAction (history : List Message) (opts : ChatRequestOptions) : ReloadAction :=
  if history.length = 0 then ReloadAction.noRequestNull
  else
    match history.getLast? with
    | some lastMessage =>
      if lastMessage.role = Role.assistant then
        ReloadAction.request
          { messages := history.dropLast,
            functions := opts.functions,
            function_call := opts.function_call }
      else ReloadAction.noRequestUndef
    | none => ReloadAction.noRequestUndef

/-- The message argument of `append`: its `id` may be absent. -/
structure CreateMessageIn where
  id : Option String := none
  createdAt : Nat
  role : Role
  content : String
  name : Option String := none
  function_call : Option FCField := none
  deriving Repr

/-- The id assignment in `append` (source lines 290-292):
`if (!message.id) message.id = nanoid()`.  The JavaScript test `!message.id`
is true for an absent id and for the empty string. -/
def resolvedId (fresh : String) (id : Option String) : String :=
  match id with
  | none => fresh
  | some s => if s = "" then fresh else s

/-- The message as submitted by `append` after id resolution. -/
def appendedMessage (fresh : String) (message : CreateMessageIn) : Message :=
  { id := resolvedId fresh message.id,
    createdAt := message.createdAt,
    role := message.role,
    content := message.content,
    name := message.name,
    function_call := message.function_call }

/-- `append` (source lines 288-301), as the request it builds and submits:
the current history plus the (id-resolved) new message, with the per-call
`functions` / `function_call` overrides spread in only when present.
`fresh` is the `nanoid()` value drawn when the id is assigned. -/
def appendRequest (fresh : String) (history : List Message)
    (message : CreateMessageIn) (opts : ChatRequestOptions) : ChatRequest :=
  { messages := history ++ [appendedMessage fresh message],
    functions := opts.functions,
    function_call := opts.function_call }

/-! ## Auxiliary pure descriptions of the read loop -/

/-- Concatenation of a list of text chunks. -/
def joinAll : List String → String
  | [] => ""
  | c :: cs => c ++ joinAll cs

/-- The successive accumulator values seen by the read loop while consuming
a list of chunks, starting from accumulator `acc`. -/
def chunkAccs (acc : String) : List String → List String
  | [] => []
  | c :: cs => (acc ++ c) :: chunkAccs (acc ++ c) cs

/-- Pure mirror of the read loop restricted to successfully read chunks:
returns the final accumulator, the final in-progress message and the
per-chunk publications. -/
def chunkFold (base : List Message) : List String → String → Message →
    String × Message × List (List Message)
  | [], acc, msg => (acc, msg, [])
  | c :: cs, acc, msg =>
    let acc2 := acc ++ c
    let msg2 := updateMsg msg acc2
    match chunkFold base cs acc2 msg2 with
    | (a, m, pubs) => (a, m, (base ++ [msg2]) :: pubs)

/-! ## Concrete fixtures (used by witnesses and counterexamples) -/

/-- A sample user message. -/
def userMsg : Message :=
  { id := "u1", createdAt := 0, role := Role.user, content := "hi" }

/-- A sample assistant message. -/
def assistantMsg : Message :=
  { id := "a1", createdAt := 1, role := Role.assistant, content := "hello" }

/-- A request carrying the single user message. -/
def reqU : ChatRequest := { messages := [userMsg] }

/-- An initial orchestrator state. -/
def st0 : OrchState :=
  { store := fun _ => none, cell := [], errorState := none, isLoading := false,
    abortCtrl := false, loadingWrites := [] }

/-- Empty per-call options. -/
def noOpts : ChatRequestOptions := {}

/-- The complete function-call stream text of the spec's example. -/
def fcText : String :=
  "\x7b\"function_call\": \x7b\"name\":\"f\",\"arguments\":\"\x7b\x7d\"\x7d\x7d"

/-- `fcText` minus its first character. -/
def fcTextTail : String :=
  "\"function_call\": \x7b\"name\":\"f\",\"arguments\":\"\x7b\x7d\"\x7d\x7d"

/-- The structured value of the parsed function call. -/
def fcParsed : Json :=
  Json.obj [("name", Json.str "f"), ("arguments", Json.str "\x7b\x7d")]

/-- An environment whose stream delivers `fcText` in one chunk. -/
def fcEnv : EngineEnv :=
  { fetch := FetchOutcome.resp
      { ok := true, bodyText := "", body := some [ReadEvent.chunk fcText] },
    replyId := "r1", createdAt := 0 }

/-- The constant oracle that answers every request with `fcEnv`. -/
def fcEnvs : Nat → EngineEnv := fun _ => fcEnv

/-- The assistant message produced by a run against `fcEnv`. -/
def fcReplyMsg : Message :=
  { id := "r1", createdAt := 0, role := Role.assistant, content := "",
    function_call := some (FCField.val fcParsed) }

/-- An environment delivering `fcText` split so that the first accumulator
value is shorter than the function-call marker. -/
def splitFCEnv : EngineEnv :=
  { fetch := FetchOutcome.resp
      { ok := true, bodyText := "",
        body := some [ReadEvent.chunk "\x7b", ReadEvent.chunk fcTextTail] },
    replyId := "r1", createdAt := 0 }

/-- The abort error produced when the fetch is aborted. -/
def abortErr : JsError :=
  { name := "AbortError", message := "The user aborted a request." }

/-- An environment whose second read rejects with the abort error (as after
a `stop()` call during the stream). -/
def abortEnv : EngineEnv :=
  { fetch := FetchOutcome.resp
      { ok := true, bodyText := "",
        body := some [ReadEvent.chunk "He", ReadEvent.fail abortErr] },
    replyId := "r1", createdAt := 0 }

/-- The constant oracle that answers every request with `abortEnv`. -/
def abortEnvs : Nat → EngineEnv := fun _ => abortEnv

/-- A non-2xx response with body text. -/
def notFoundResp : HttpResponse := { ok := false, bodyText := "boom", body := none }

/-- A non-2xx response with empty body text. -/
def emptyTextResp : HttpResponse := { ok := false, bodyText := "", body := none }

/-- A mid-stream read failure. -/
def readErr : JsError := { name := "TypeError", message := "network error" }

/-- A network failure (fetch rejection). -/
def netFailErr : JsError := { name := "TypeError", message := "fetch failed" }

/-- An environment whose fetch rejects. -/
def netFailEnv : EngineEnv :=
  { fetch := FetchOutcome.fail netFailErr, replyId := "r1", createdAt := 0 }

/-- A non-2xx environment with body text. -/
def notFoundEnv : EngineEnv :=
  { fetch := FetchOutcome.resp notFoundResp, replyId := "r1", createdAt := 0 }

/-- A non-2xx environment with empty body text. -/
def emptyTextEnv : EngineEnv :=
  { fetch := FetchOutcome.resp emptyTextResp, replyId := "r1", createdAt := 0 }

/-- The constant oracle answering with `notFoundEnv`. -/
def notFoundEnvs : Nat → EngineEnv := fun _ => notFoundEnv

/-- The constant oracle answering with `emptyTextEnv`. -/
def emptyTextEnvs : Nat → EngineEnv := fun _ => emptyTextEnv

/-- A successful response whose second read rejects with `readErr`. -/
def streamFailResp : HttpResponse :=
  { ok := true, bodyText := "",
    body := some [ReadEvent.chunk "He", ReadEvent.fail readErr] }

/-- An environment wrapping `streamFailResp`. -/
def streamFailEnv : EngineEnv :=
  { fetch := FetchOutcome.resp streamFailResp, replyId := "r1", createdAt := 0 }

/-- An append argument whose id is the empty string. -/
def emptyIdMsg : CreateMessageIn :=
  { id := some "", createdAt := 3, role := Role.user, content := "hi" }

/-- An append argument with a non-empty id. -/
def namedIdMsg : CreateMessageIn :=
  { id := some "u7", createdAt := 3, role := Role.user, content := "hi" }

/-- An append argument with no id. -/
def noIdMsg : CreateMessageIn :=
  { createdAt := 3, role := Role.user, content := "hi" }

/-- The assistant message produced by a run against `splitFCEnv`: the early
short accumulator left its value in `content`. -/
def splitReplyMsg : Message :=
  { id := "r1", createdAt := 0, role := Role.assistant, content := "\x7b",
    function_call := some (FCField.val fcParsed) }

/-! ## Helper lemmas -/

theorem mutate_store_self (key : String) (st : OrchState) (msgs : List Message) :
    (mutate key st msgs).store key = some msgs := by
  simp [mutate]

theorem applyMuts_misc (key : String) (muts : List (List Message)) :
    ∀ st : OrchState,
      (applyMuts key st muts).isLoading = st.isLoading ∧
      (applyMuts key st muts).loadingWrites = st.loadingWrites ∧
      (applyMuts key st muts).errorState = st.errorState ∧
      (applyMuts key st muts).abortCtrl = st.abortCtrl := by
  induction muts with
  | nil => intro st; exact ⟨rfl, rfl, rfl, rfl⟩
  | cons m ms ih =>
    intro st
    have h := ih (mutate key st m)
    simpa [applyMuts] using h

theorem chatLoop_misc (handler : Option FunctionCallHandler) (key : String)
    (envs : Nat → EngineEnv) (fuel : Nat) :
    ∀ i req st ex st2,
      chatLoop handler key envs fuel i req st = some (ex, st2) →
      st2.isLoading = st.isLoading ∧ st2.loadingWrites = st.loadingWrites ∧
      st2.errorState = st.errorState ∧ st2.abortCtrl = st.abortCtrl := by
  induction fuel with
  | zero =>
    intro i req st ex st2 h
    exact absurd h (by simp [chatLoop])
  | succ n ih =>
    intro i req st ex st2 h
    simp only [chatLoop] at h
    have ha := applyMuts_misc key (getStreamedResponse req st.cell false (envs i)).muts st
    repeat' split at h
    all_goals
      first
      | (have hm := ih _ _ _ _ _ h
         exact ⟨hm.1.trans ha.1, hm.2.1.trans ha.2.1, hm.2.2.1.trans ha.2.2.1,
           hm.2.2.2.trans ha.2.2.2⟩)
      | (injection h with h1
         injection h1 with h2 h3
         subst h3
         exact ha)

theorem readLoop_no_cancel (base : List Message) (events : List ReadEvent) :
    ∀ (acc : String) (msg : Message),
      (readLoop base false events acc msg).2.2.2 ≠ LoopEnd.cancelled := by
  induction events with
  | nil => intro acc msg h; simp [readLoop] at h
  | cons ev rest ih =>
    intro acc msg
    cases ev with
    | fail e => intro h; simp [readLoop] at h
    | chunk s =>
      have h2 := ih (acc ++ s) (updateMsg msg (acc ++ s))
      simp only [readLoop]
      rcases hr : readLoop base false rest (acc ++ s) (updateMsg msg (acc ++ s)) with
        ⟨a, m, pubs, endk⟩
      rw [hr] at h2
      simpa using h2

/-- Branch lemma: network failure (fetch rejection). -/
theorem engine_netfail (req : ChatRequest) (prev : List Message) (e : JsError)
    (o : Option JsError) (rid : String) (cat : Nat) :
    getStreamedResponse req prev false ⟨FetchOutcome.fail e, o, rid, cat⟩ =
      { muts := [req.messages, prev], rolledBack := true, softCancelled := false,
        result := Except.error e } := rfl

/-- Branch lemma: a registered `onResponse` callback throws. -/
theorem engine_onresponse_throw (req : ChatRequest) (prev : List Message)
    (r : HttpResponse) (e : JsError) (rid : String) (cat : Nat) :
    getStreamedResponse req prev false ⟨FetchOutcome.resp r, some e, rid, cat⟩ =
      { muts := [req.messages], rolledBack := false, softCancelled := false,
        result := Except.error e } := rfl

/-- Branch lemma: non-2xx status. -/
theorem engine_non2xx (req : ChatRequest) (prev : List Message) (btext : String)
    (body : Option (List ReadEvent)) (rid : String) (cat : Nat) :
    getStreamedResponse req prev false
        ⟨FetchOutcome.resp ⟨false, btext, body⟩, none, rid, cat⟩ =
      { muts := [req.messages, prev], rolledBack := true, softCancelled := false,
        result := Except.error
          ⟨"Error", if btext = "" then "Failed to fetch the chat response." else btext⟩ } :=
  rfl

/-- Branch lemma: missing response body. -/
theorem engine_nobody (req : ChatRequest) (prev : List Message) (btext : String)
    (rid : String) (cat : Nat) :
    getStreamedResponse req prev false
        ⟨FetchOutcome.resp ⟨true, btext, none⟩, none, rid, cat⟩ =
      { muts := [req.messages], rolledBack := false, softCancelled := false,
        result := Except.error ⟨"Error", "The response body is empty."⟩ } := rfl

/-- Branch lemma: the read loop ends with a rejected read. -/
theorem engine_stream_failed (req : ChatRequest) (prev : List Message) (btext : String)
    (events : List ReadEvent) (rid : String) (cat : Nat) (acc : String) (msg : Message)
    (pubs : List (List Message)) (e : JsError)
    (hr : readLoop req.messages false events "" (initialAssistantMessage rid cat) =
      (acc, msg, pubs, LoopEnd.failed e)) :
    getStreamedResponse req prev false
        ⟨FetchOutcome.resp ⟨true, btext, some events⟩, none, rid, cat⟩ =
      { muts := req.messages :: pubs, rolledBack := false, softCancelled := false,
        result := Except.error e } := by
  simp [getStreamedResponse, hr]

/-- Branch lemma: the stream completes without the function-call marker. -/
theorem engine_stream_plain (req : ChatRequest) (prev : List Message) (btext : String)
    (events : List ReadEvent) (rid : String) (cat : Nat) (acc : String) (msg : Message)
    (pubs : List (List Message))
    (hr : readLoop req.messages false events "" (initialAssistantMessage rid cat) =
      (acc, msg, pubs, LoopEnd.done))
    (hsw : strStartsWith acc fcMarker = false) :
    getStreamedResponse req prev false
        ⟨FetchOutcome.resp ⟨true, btext, some events⟩, none, rid, cat⟩ =
      { muts := req.messages :: pubs, rolledBack := false, softCancelled := false,
        result := Except.ok msg } := by
  simp [getStreamedResponse, hr, hsw]

/-- Branch lemma: the stream completes with the marker but the accumulated
text fails `JSON.parse`. -/
theorem engine_stream_parse_error (req : ChatRequest) (prev : List Message)
    (btext : String) (events : List ReadEvent) (rid : String) (cat : Nat) (acc : String)
    (msg : Message) (pubs : List (List Message))
    (hr : readLoop req.messages false events "" (initialAssistantMessage rid cat) =
      (acc, msg, pubs, LoopEnd.done))
    (hsw : strStartsWith acc fcMarker = true)
    (hp : jsonParse acc = none) :
    getStreamedResponse req prev false
        ⟨FetchOutcome.resp ⟨true, btext, some events⟩, none, rid, cat⟩ =
      { muts := req.messages :: pubs, rolledBack := false, softCancelled := false,
        result := Except.error ⟨"SyntaxError", "Unexpected token in JSON"⟩ } := by
  simp [getStreamedResponse, hr, hsw, hp]

/-- Branch lemma: the stream completes with the marker and the accumulated
text parses; the raw `function_call` string is replaced by the parsed value
and the list is republished. -/
theorem engine_stream_fc (req : ChatRequest) (prev : List Message) (btext : String)
    (events : List ReadEvent) (rid : String) (cat : Nat) (acc : String) (msg : Message)
    (pubs : List (List Message)) (j : Json)
    (hr : readLoop req.messages false events "" (initialAssistantMessage rid cat) =
      (acc, msg, pubs, LoopEnd.done))
    (hsw : strStartsWith acc fcMarker = true)
    (hp : jsonParse acc = some j) :
    getStreamedResponse req prev false
        ⟨FetchOutcome.resp ⟨true, btext, some events⟩, none, rid, cat⟩ =
      { muts := req.messages ::
          (pubs ++ [req.messages ++
            [{ msg with function_call := (jsonGetField j "function_call").map jsToFC }]]),
        rolledBack := false, softCancelled := false,
        result := Except.ok
          { msg with function_call := (jsonGetField j "function_call").map jsToFC } } := by
  simp [getStreamedResponse, hr, hsw, hp]

/-- On a stream of plain chunks followed by a rejected read, the read loop
delivers exactly the per-chunk publications of the chunks read before the
failure and reports the failure. -/
theorem readLoop_chunks_fail (base : List Message) (e : JsError) (rest : List ReadEvent)
    (chunks : List String) :
    ∀ (acc : String) (msg : Message),
      readLoop base false (List.map ReadEvent.chunk chunks ++ ReadEvent.fail e :: rest)
          acc msg =
        ((chunkFold base chunks acc msg).1, (chunkFold base chunks acc msg).2.1,
          (chunkFold base chunks acc msg).2.2, LoopEnd.failed e) := by
  induction chunks with
  | nil => intro acc msg; rfl
  | cons c cs ih =>
    intro acc msg
    simp only [List.map_cons, List.cons_append, readLoop, Bool.false_eq_true, if_false,
      List.append_eq, ih (acc ++ c) (updateMsg msg (acc ++ c))]
    rfl

/-- On a stream made of plain chunks only, the read loop delivers exactly the
per-chunk publications and reports normal completion. -/
theorem readLoop_chunks_done (base : List Message) (chunks : List String) :
    ∀ (acc : String) (msg : Message),
      readLoop base false (List.map ReadEvent.chunk chunks) acc msg =
        ((chunkFold base chunks acc msg).1, (chunkFold base chunks acc msg).2.1,
          (chunkFold base chunks acc msg).2.2, LoopEnd.done) := by
  induction chunks with
  | nil => intro acc msg; rfl
  | cons c cs ih =>
    intro acc msg
    simp only [List.map_cons, readLoop, Bool.false_eq_true, if_false,
      List.append_eq, ih (acc ++ c) (updateMsg msg (acc ++ c))]
    rfl

/-- The engine never executes the rollback publication on the
successful-status path, whatever happens to the stream afterwards. -/
theorem engine_ok_no_rollback (req : ChatRequest) (prev : List Message) (btext : String)
    (body : Option (List ReadEvent)) (rid : String) (cat : Nat) :
    (getStreamedResponse req prev false
      ⟨FetchOutcome.resp ⟨true, btext, body⟩, none, rid, cat⟩).rolledBack = false := by
  cases body with
  | none => rfl
  | some events =>
    rcases hr : readLoop req.messages false events "" (initialAssistantMessage rid cat) with
      ⟨acc, msg, pubs, endk⟩
    cases endk with
    | cancelled =>
      have hnc := readLoop_no_cancel req.messages events "" (initialAssistantMessage rid cat)
      rw [hr] at hnc
      exact absurd rfl hnc
    | failed e =>
      rw [engine_stream_failed req prev btext events rid cat acc msg pubs e hr]
    | done =>
      cases hsw : strStartsWith acc fcMarker with
      | false =>
        rw [engine_stream_plain req prev btext events rid cat acc msg pubs hr hsw]
      | true =>
        cases hp : jsonParse acc with
        | none =>
          rw [engine_stream_parse_error req prev btext events rid cat acc msg pubs hr hsw hp]
        | some j =>
          rw [engine_stream_fc req prev btext events rid cat acc msg pubs j hr hsw hp]

theorem strAppend_assoc (a b c : String) : a ++ b ++ c = a ++ (b ++ c) := by
  cases a with
  | mk la =>
    cases b with
    | mk lb =>
      cases c with
      | mk lc => exact congrArg String.mk (List.append_assoc la lb lc)

theorem strAppend_empty (a : String) : a ++ "" = a := by
  cases a with
  | mk l => exact congrArg String.mk (List.append_nil l)

/-- If every accumulator value seen while consuming the chunks is empty or
already starts with the function-call marker, the in-progress message's
`content` field stays empty, and the final accumulator is the concatenation
of the chunks. -/
theorem chunkFold_content (base : List Message) (chunks : List String) :
    ∀ (acc : String) (msg : Message), msg.content = "" →
      (∀ a ∈ chunkAccs acc chunks, a = "" ∨ strStartsWith a fcMarker = true) →
      (chunkFold base chunks acc msg).2.1.content = "" ∧
      (chunkFold base chunks acc msg).1 = acc ++ joinAll chunks := by
  induction chunks with
  | nil =>
    intro acc msg hcontent _
    exact ⟨hcontent, by simp [chunkFold, joinAll, strAppend_empty]⟩
  | cons c cs ih =>
    intro acc msg hcontent hacc
    have hthis : acc ++ c = "" ∨ strStartsWith (acc ++ c) fcMarker = true :=
      hacc _ (by simp [chunkAccs])
    have hupd : (updateMsg msg (acc ++ c)).content = "" := by
      rcases hthis with h | h
      · have hsw : strStartsWith "" fcMarker = false := rfl
        simp [updateMsg, hsw, h]
      · simp [updateMsg, h, hcontent]
    have hrest : ∀ a ∈ chunkAccs (acc ++ c) cs,
        a = "" ∨ strStartsWith a fcMarker = true := by
      intro a ha
      exact hacc a (by simp [chunkAccs, ha])
    have ihc := ih (acc ++ c) (updateMsg msg (acc ++ c)) hupd hrest
    refine ⟨ihc.1, ?_⟩
    have h2 : (chunkFold base (c :: cs) acc msg).1 =
        (chunkFold base cs (acc ++ c) (updateMsg msg (acc ++ c))).1 := rfl
    rw [h2, ihc.2, show joinAll (c :: cs) = c ++ joinAll cs from rfl, strAppend_assoc]

/-- Publications through `mutate` preserve the store/cell agreement at the
session key. -/
theorem applyMuts_sync (key : String) (muts : List (List Message)) :
    ∀ st : OrchState, st.store key = some st.cell →
      (applyMuts key st muts).store key = some (applyMuts key st muts).cell := by
  induction muts with
  | nil => intro st h; exact h
  | cons m ms ih =>
    intro st h
    have h2 : (mutate key st m).store key = some (mutate key st m).cell := by
      simp [mutate]
    simpa [applyMuts] using ih (mutate key st m) h2

/-- The engine always publishes at least once (the optimistic update). -/
theorem engine_muts_ne_nil (req : ChatRequest) (prev : List Message)
    (abortIsNull : Bool) (env : EngineEnv) :
    (getStreamedResponse req prev abortIsNull env).muts ≠ [] := by
  obtain ⟨f, o, rid, cat⟩ := env
  cases f with
  | fail e => simp [getStreamedResponse]
  | resp r =>
    obtain ⟨ok, btext, body⟩ := r
    cases o with
    | some e => simp [getStreamedResponse]
    | none =>
      cases ok with
      | false => simp [getStreamedResponse]
      | true =>
        cases body with
        | none => simp [getStreamedResponse]
        | some events =>
          rcases hr : readLoop req.messages abortIsNull events ""
              (initialAssistantMessage rid cat) with ⟨acc, msg, pubs, endk⟩
          cases endk with
          | failed e => simp [getStreamedResponse, hr]
          | done =>
            cases hsw : strStartsWith acc fcMarker with
            | false => simp [getStreamedResponse, hr, hsw]
            | true =>
              cases hp : jsonParse acc with
              | none => simp [getStreamedResponse, hr, hsw, hp]
              | some j => simp [getStreamedResponse, hr, hsw, hp]
          | cancelled =>
            cases hsw : strStartsWith acc fcMarker with
            | false => simp [getStreamedResponse, hr, hsw]
            | true =>
              cases hp : jsonParse acc with
              | none => simp [getStreamedResponse, hr, hsw, hp]
              | some j => simp [getStreamedResponse, hr, hsw, hp]

/-- After any settled loop run, the keyed store slot agrees with the cell:
each iteration republishes through `mutate` at least once. -/
theorem chatLoop_sync (handler : Option FunctionCallHandler) (key : String)
    (envs : Nat → EngineEnv) (fuel : Nat) :
    ∀ i req st ex st2, chatLoop handler key envs fuel i req st = some (ex, st2) →
      st2.store key = some st2.cell := by
  induction fuel with
  | zero => intro i req st ex st2 h; exact absurd h (by simp [chatLoop])
  | succ n ih =>
    intro i req st ex st2 h
    simp only [chatLoop] at h
    have hsync : (applyMuts key st
        (getStreamedResponse req st.cell false (envs i)).muts).store key =
        some (applyMuts key st (getStreamedResponse req st.cell false (envs i)).muts).cell := by
      rcases hm : (getStreamedResponse req st.cell false (envs i)).muts with _ | ⟨m, ms⟩
      · exact absurd hm (engine_muts_ne_nil req st.cell false (envs i))
      · have h2 : (mutate key st m).store key = some (mutate key st m).cell := by
          simp [mutate]
        have h3 := applyMuts_sync key ms (mutate key st m) h2
        simpa [hm, applyMuts] using h3
    repeat' split at h
    all_goals first
      | exact ih _ _ _ _ _ h
      | (injection h with h1
         injection h1 with h2 h3
         subst h3
         exact hsync)

/-- A settled `triggerRequest` run ends with the keyed store slot equal to
the observable cell. -/
theorem triggerRequest_sync (handler : Option FunctionCallHandler) (key : String)
    (envs : Nat → EngineEnv) (fuel : Nat) (req : ChatRequest) (st : OrchState)
    (r : RunResult) (h : triggerRequest handler key envs fuel req st = some r) :
    r.st.store key = some r.st.cell := by
  simp only [triggerRequest] at h
  split at h
  · exact absurd h (by simp)
  · next st2 hc =>
      have hs := chatLoop_sync handler key envs fuel _ _ _ _ _ hc
      injection h with h1
      subst h1
      simpa [setLoading] using hs
  · next e st2 hc =>
      have hs := chatLoop_sync handler key envs fuel _ _ _ _ _ hc
      split at h
      · injection h with h1
        subst h1
        simpa [setLoading] using hs
      · injection h with h1
        subst h1
        simpa [setLoading] using hs

/-- A first-iteration engine failure whose error is not an `AbortError`
settles the exchange through the generic error path: the error is published
into the error cell and the exchange resolves to `undefined`. -/
theorem triggerRequest_first_iter_error (handler : Option FunctionCallHandler)
    (key : String) (envs : Nat → EngineEnv) (fuel : Nat) (req : ChatRequest)
    (st : OrchState) (e : JsError)
    (hres : (getStreamedResponse req
        ({ setLoading st true with abortCtrl := true } : OrchState).cell false
        (envs 0)).result = Except.error e)
    (hne : ¬ e.name = "AbortError") :
    ∃ st2, triggerRequest handler key envs (fuel + 1) req st =
        some ⟨RetVal.undef, setLoading { st2 with errorState := some e } false⟩ ∧
      st2 = applyMuts key { setLoading st true with abortCtrl := true }
        (getStreamedResponse req
          ({ setLoading st true with abortCtrl := true } : OrchState).cell false
          (envs 0)).muts := by
  refine ⟨_, ?_, rfl⟩
  simp only [triggerRequest, chatLoop, hres]
  rw [if_neg hne]

/-! ## Claim theorems -/

/-- Claim C2 (status: code bug).  The cooperative cancellation check of the
read loop (`abortControllerRef === null`, once per chunk) is never observed
to fire when the engine is invoked the way `triggerRequest` invokes it: the
`abortControllerRef` parameter is passed by value and `triggerRequest`
always passes the freshly created, non-null controller (`abortIsNull =
false`), and the engine never reassigns the parameter, so for every
environment — including any in which `stop()` clears the orchestrator's own
reference mid-stream — the soft-cancellation branch is dead.  Actual
cancellation reaches the engine only as an `AbortError` rejection of the
in-flight awaited read (a hard abort), contradicting the claim. -/
theorem C2_soft_cancel_never_observed (req : ChatRequest) (prev : List Message)
    (env : EngineEnv) :
    (getStreamedResponse req prev false env).softCancelled = false := by
  obtain ⟨f, o, rid, cat⟩ := env
  cases f with
  | fail e => rfl
  | resp r =>
    obtain ⟨ok, btext, body⟩ := r
    cases o with
    | some e => rfl
    | none =>
      cases ok with
      | false => rfl
      | true =>
        cases body with
        | none => rfl
        | some events =>
          rcases hr : readLoop req.messages false events ""
              (initialAssistantMessage rid cat) with ⟨acc, msg, pubs, endk⟩
          cases endk with
          | cancelled =>
            have hnc := readLoop_no_cancel req.messages events ""
              (initialAssistantMessage rid cat)
            rw [hr] at hnc
            exact absurd rfl hnc
          | failed e =>
            rw [engine_stream_failed req prev btext events rid cat acc msg pubs e hr]
          | done =>
            cases hsw : strStartsWith acc fcMarker with
            | false =>
              rw [engine_stream_plain req prev btext events rid cat acc msg pubs hr hsw]
            | true =>
              cases hp : jsonParse acc with
              | none =>
                rw [engine_stream_parse_error req prev btext events rid cat acc msg pubs
                  hr hsw hp]
              | some j =>
                rw [engine_stream_fc req prev btext events rid cat acc msg pubs j
                  hr hsw hp]

/-- Claim C4 counterexample.  `reload()` on the empty history returns
`null`, not nothing/undefined: the source line is
`if (messagesSnapshot.length === 0) return null`. -/
theorem C4_counterexample :
    reloadAction [] noOpts = ReloadAction.noRequestNull ∧
    ReloadAction.noRequestNull ≠ ReloadAction.noRequestUndef :=
  ⟨rfl, fun h => ReloadAction.noConfusion h⟩

/-- Claim C4 (status: corrected; amended).  `reload()` issues no request and
returns null on an empty history; issues no request and returns undefined
when the last message is from the user; and when the last message is from
the assistant it removes that message and resubmits the remaining history as
a new request. -/
theorem C4_reload_behavior (history : List Message) (opts : ChatRequestOptions) :
    (history = [] → reloadAction history opts = ReloadAction.noRequestNull) ∧
    (∀ m, history.getLast? = some m → m.role = Role.user →
      reloadAction history opts = ReloadAction.noRequestUndef) ∧
    (∀ m, history.getLast? = some m → m.role = Role.assistant →
      reloadAction history opts =
        ReloadAction.request
          { messages := history.dropLast, functions := opts.functions,
            function_call := opts.function_call }) := by
  refine ⟨?_, ?_, ?_⟩
  · rintro rfl; rfl
  · intro m hm hrole
    have hne : history ≠ [] := by
      intro h; rw [h] at hm; simp at hm
    have hlen : ¬ history.length = 0 := by
      simpa [List.length_eq_zero] using hne
    simp [reloadAction, hlen, hm, hrole]
  · intro m hm hrole
    have hne : history ≠ [] := by
      intro h; rw [h] at hm; simp at hm
    have hlen : ¬ history.length = 0 := by
      simpa [List.length_eq_zero] using hne
    simp [reloadAction, hlen, hm, hrole]

/-- Claim C4 witness: the three behaviors at concrete histories. -/
theorem C4_witness :
    reloadAction [] noOpts = ReloadAction.noRequestNull ∧
    reloadAction [userMsg] noOpts = ReloadAction.noRequestUndef ∧
    reloadAction [userMsg, assistantMsg] noOpts =
      ReloadAction.request { messages := [userMsg], functions := none, function_call := none } :=
  ⟨(C4_reload_behavior [] noOpts).1 rfl,
   (C4_reload_behavior [userMsg] noOpts).2.1 userMsg rfl rfl,
   (C4_reload_behavior [userMsg, assistantMsg] noOpts).2.2 assistantMsg rfl rfl⟩

/-- Claim C9 counterexample.  A message that has an id — the empty string —
does not keep it: `if (!message.id) message.id = nanoid()` treats the empty
string as missing, so the submitted message carries the generated id. -/
theorem C9_counterexample :
    emptyIdMsg.id = some "" ∧
    (appendRequest "gen" [] emptyIdMsg noOpts).messages =
      [{ id := "gen", createdAt := 3, role := Role.user, content := "hi" }] ∧
    "gen" ≠ "" :=
  ⟨rfl, rfl, by decide⟩

/-- Claim C9 (status: corrected; amended).  A message with no id, or with
the JavaScript-falsy empty-string id, is submitted with the freshly
generated id; a message with a non-empty id keeps it verbatim. -/
theorem C9_append_id (fresh : String) (history : List Message)
    (message : CreateMessageIn) (opts : ChatRequestOptions) :
    ((message.id = none ∨ message.id = some "") →
      ∃ m, (appendRequest fresh history message opts).messages.getLast? = some m ∧
        m.id = fresh) ∧
    (∀ s, message.id = some s → s ≠ "" →
      ∃ m, (appendRequest fresh history message opts).messages.getLast? = some m ∧
        m.id = s) := by
  constructor
  · intro hid
    refine ⟨appendedMessage fresh message, ?_, ?_⟩
    · simp [appendRequest]
    · rcases hid with h | h <;> simp [appendedMessage, resolvedId, h]
  · intro s hs hne
    refine ⟨appendedMessage fresh message, ?_, ?_⟩
    · simp [appendRequest]
    · simp [appendedMessage, resolvedId, hs, hne]

set_option maxRecDepth 4000 in
/-- Against `fcEnv`, the engine resolves to the structured-function-call
message regardless of the request or the rollback snapshot. -/
theorem engine_fcEnv_result (req : ChatRequest) (prev : List Message) :
    (getStreamedResponse req prev false fcEnv).result = Except.ok fcReplyMsg := rfl

/-- With no registered `onFunctionCall` handler, the orchestrator loop run
against the constant function-call oracle never breaks: each iteration
re-enters with the same request. -/
theorem chatLoop_fcEnvs_no_handler (key : String) (fuel : Nat) :
    ∀ (i : Nat) (req : ChatRequest) (st : OrchState),
      chatLoop none key fcEnvs fuel i req st = none := by
  induction fuel with
  | zero => intro i req st; rfl
  | succ n ih =>
    intro i req st
    have hres : (getStreamedResponse req st.cell false (fcEnvs i)).result =
        Except.ok fcReplyMsg := engine_fcEnv_result req st.cell
    simp only [chatLoop, hres]
    exact ih (i + 1) req _

/-- Claim C1 (status: code bug).  When the engine returns a message whose
`function_call` is a structured object and no `onFunctionCall` handler is
registered, `triggerRequest` does not terminate: the loop body has no break
for that case and re-enters with the same request, so against the constant
function-call oracle the exchange never settles for any amount of fuel
(the source loops `while (true)`, re-issuing the identical request forever). -/
theorem C1_no_handler_never_settles (fuel : Nat) (key : String) (req : ChatRequest)
    (st : OrchState) :
    triggerRequest none key fcEnvs fuel req st = none := by
  simp only [triggerRequest, chatLoop_fcEnvs_no_handler key fuel 0 req]

/-- Claim C7 (status: confirmed).  An exchange whose loop fails with an
`AbortError` — the failure `stop()` induces by aborting the in-flight fetch —
settles with result `null`, leaves the observable error state untouched, and
ends with the loading flag false and the controller reference cleared. -/
theorem C7_abort_resolves_null (handler : Option FunctionCallHandler) (key : String)
    (envs : Nat → EngineEnv) (fuel : Nat) (req : ChatRequest) (st : OrchState)
    (e : JsError)
    (h : ∃ st2, chatLoop handler key envs fuel 0 req
      { setLoading st true with abortCtrl := true } = some (LoopExit.failure e, st2))
    (he : e.name = "AbortError") :
    ∃ r, triggerRequest handler key envs fuel req st = some r ∧
      r.ret = RetVal.null ∧ r.st.errorState = st.errorState ∧
      r.st.isLoading = false ∧ r.st.abortCtrl = false := by
  obtain ⟨st2, h2⟩ := h
  have hm := chatLoop_misc handler key envs fuel 0 req _ _ _ h2
  refine ⟨{ ret := RetVal.null, st := setLoading { st2 with abortCtrl := false } false },
    ?_, rfl, ?_, rfl, rfl⟩
  · simp only [triggerRequest, h2]
    simp [he]
  · simpa [setLoading] using hm.2.2.1

/-- Claim C7 witness: a concrete exchange aborted at the second read. -/
theorem C7_witness :
    ∃ r, triggerRequest none "k" abortEnvs 1 reqU st0 = some r ∧
      r.ret = RetVal.null ∧ r.st.errorState = st0.errorState ∧
      r.st.isLoading = false ∧ r.st.abortCtrl = false :=
  C7_abort_resolves_null none "k" abortEnvs 1 reqU st0 abortErr ⟨_, rfl⟩ rfl

/-- A settled `triggerRequest` run ends with `isLoading = false` and its
loading-write trace is exactly a `true` at entry followed by the `finally`
clause's `false` at exit, on every exit path. -/
theorem triggerRequest_loading_shape (handler : Option FunctionCallHandler)
    (key : String) (envs : Nat → EngineEnv) (fuel : Nat) (req : ChatRequest)
    (st : OrchState) (r : RunResult)
    (h : triggerRequest handler key envs fuel req st = some r) :
    r.st.isLoading = false ∧ r.st.loadingWrites = st.loadingWrites ++ [true, false] := by
  simp only [triggerRequest] at h
  split at h
  · exact absurd h (by simp)
  · next st2 hc =>
      have hm := chatLoop_misc handler key envs fuel 0 req _ _ _ hc
      injection h with h1
      subst h1
      exact ⟨rfl, by simp [setLoading, hm.2.1]⟩
  · next e st2 hc =>
      have hm := chatLoop_misc handler key envs fuel 0 req _ _ _ hc
      split at h
      · injection h with h1
        subst h1
        exact ⟨rfl, by simp [setLoading, hm.2.1]⟩
      · injection h with h1
        subst h1
        exact ⟨rfl, by simp [setLoading, hm.2.1]⟩

/-- Claim C8 (status: confirmed).  In every settled exchange — success,
non-cancellation error, or cancellation — the loading flag was written true
at the start, written false at settlement (the `finally` clause), and ends
false. -/
theorem C8_loading_always_reset (handler : Option FunctionCallHandler) (key : String)
    (envs : Nat → EngineEnv) (fuel : Nat) (req : ChatRequest) (st : OrchState) :
    match triggerRequest handler key envs fuel req st with
    | some r => r.st.isLoading = false ∧
        r.st.loadingWrites = st.loadingWrites ++ [true, false]
    | none => True := by
  rcases ht : triggerRequest handler key envs fuel req st with _ | r
  · trivial
  · exact triggerRequest_loading_shape handler key envs fuel req st r ht

/-- Claim C9 witness: a missing id gets the generated id; a non-empty id is
preserved. -/
theorem C9_witness :
    (∃ m, (appendRequest "gen" [userMsg] noIdMsg noOpts).messages.getLast? = some m ∧
      m.id = "gen") ∧
    (∃ m, (appendRequest "gen" [userMsg] namedIdMsg noOpts).messages.getLast? = some m ∧
      m.id = "u7") :=
  ⟨(C9_append_id "gen" [userMsg] noIdMsg noOpts).1 (Or.inl rfl),
   (C9_append_id "gen" [userMsg] namedIdMsg noOpts).2 "u7" rfl (by decide)⟩

/-- Claim C5 (status: confirmed).  A non-2xx response makes the engine
publish exactly the optimistic list followed by the pre-request snapshot
(an exact revert), and fail with an error whose message is the response body
text, or the generic message when that text is empty; run under the
orchestrator, the exchange ends with the message cell and keyed store slot
back at their pre-request value, the error published in the observable error
state, and the `undefined` resolution of the generic error path. -/
theorem C5_non2xx_reverts_and_publishes (req : ChatRequest) (prev : List Message)
    (btext : String) (body : Option (List ReadEvent)) (rid : String) (cat : Nat) :
    (getStreamedResponse req prev false
        ⟨FetchOutcome.resp ⟨false, btext, body⟩, none, rid, cat⟩).muts =
      [req.messages, prev] ∧
    (getStreamedResponse req prev false
        ⟨FetchOutcome.resp ⟨false, btext, body⟩, none, rid, cat⟩).result =
      Except.error ⟨"Error",
        if btext = "" then "Failed to fetch the chat response." else btext⟩ ∧
    (∀ (handler : Option FunctionCallHandler) (key : String) (envs : Nat → EngineEnv)
        (fuel : Nat) (st : OrchState),
      envs 0 = ⟨FetchOutcome.resp ⟨false, btext, body⟩, none, rid, cat⟩ →
      ∃ r, triggerRequest handler key envs (fuel + 1) req st = some r ∧
        r.st.cell = st.cell ∧ r.st.store key = some st.cell ∧
        r.st.errorState = some ⟨"Error",
          if btext = "" then "Failed to fetch the chat response." else btext⟩ ∧
        r.ret = RetVal.undef) := by
  refine ⟨by rw [engine_non2xx], by rw [engine_non2xx], ?_⟩
  intro handler key envs fuel st henv
  have hres : (getStreamedResponse req
      ({ setLoading st true with abortCtrl := true } : OrchState).cell false
      (envs 0)).result =
      Except.error ⟨"Error",
        if btext = "" then "Failed to fetch the chat response." else btext⟩ := by
    rw [henv, engine_non2xx]
  obtain ⟨st2, ht, hst2⟩ :=
    triggerRequest_first_iter_error handler key envs fuel req st _ hres (by simp)
  rw [henv, engine_non2xx] at hst2
  refine ⟨_, ht, ?_, ?_, rfl, rfl⟩
  · simp [hst2, applyMuts, mutate, setLoading]
  · simp [hst2, applyMuts, mutate, setLoading]

/-- Claim C5 witness: a concrete non-2xx exchange with body text `boom`, and
one with empty body text receiving the generic message. -/
theorem C5_witness :
    ((getStreamedResponse reqU [userMsg] false notFoundEnv).muts =
      [reqU.messages, [userMsg]]) ∧
    ((getStreamedResponse reqU [userMsg] false notFoundEnv).result =
      Except.error ⟨"Error", "boom"⟩) ∧
    ((getStreamedResponse reqU [userMsg] false emptyTextEnv).result =
      Except.error ⟨"Error", "Failed to fetch the chat response."⟩) ∧
    (∃ r, triggerRequest none "k" notFoundEnvs 1 reqU st0 = some r ∧
      r.st.cell = st0.cell ∧ r.st.store "k" = some st0.cell ∧
      r.st.errorState = some ⟨"Error", "boom"⟩ ∧ r.ret = RetVal.undef) := by
  refine ⟨(C5_non2xx_reverts_and_publishes reqU [userMsg] "boom" none "r1" 0).1,
    (C5_non2xx_reverts_and_publishes reqU [userMsg] "boom" none "r1" 0).2.1,
    (C5_non2xx_reverts_and_publishes reqU [userMsg] "" none "r1" 0).2.1, ?_⟩
  exact (C5_non2xx_reverts_and_publishes reqU st0.cell "boom" none "r1" 0).2.2
    none "k" notFoundEnvs 0 st0 rfl

/-- Claim C6 (status: confirmed).  The rollback publication runs exactly when
the fetch rejects or the response status is non-2xx (with the `onResponse`
callback not throwing first); a failure while reading the body mid-stream
propagates the error with no rollback, keeping exactly the optimistic
publication plus the per-chunk partial publications already made. -/
theorem C6_rollback_only_network_and_status (req : ChatRequest) (prev : List Message)
    (env : EngineEnv) :
    ((getStreamedResponse req prev false env).rolledBack = true ↔
      ((∃ e, env.fetch = FetchOutcome.fail e) ∨
       (∃ btext body, env.fetch = FetchOutcome.resp ⟨false, btext, body⟩ ∧
         env.onResponseThrow = none))) ∧
    (∀ btext chunks e rest rid cat,
      env = ⟨FetchOutcome.resp ⟨true, btext,
          some (List.map ReadEvent.chunk chunks ++ ReadEvent.fail e :: rest)⟩,
        none, rid, cat⟩ →
      (getStreamedResponse req prev false env).rolledBack = false ∧
      (getStreamedResponse req prev false env).result = Except.error e ∧
      (getStreamedResponse req prev false env).muts =
        req.messages ::
          (chunkFold req.messages chunks "" (initialAssistantMessage rid cat)).2.2) := by
  constructor
  · obtain ⟨f, o, rid, cat⟩ := env
    cases f with
    | fail e2 =>
      rw [engine_netfail]
      simp
    | resp r =>
      obtain ⟨ok, btext, body⟩ := r
      cases o with
      | some e2 =>
        rw [engine_onresponse_throw]
        simp
      | none =>
        cases ok with
        | false =>
          rw [engine_non2xx]
          simp
        | true =>
          rw [engine_ok_no_rollback]
          simp
  · intro btext chunks e rest rid cat henv
    subst henv
    have hr := readLoop_chunks_fail req.messages e rest chunks ""
      (initialAssistantMessage rid cat)
    rw [engine_stream_failed req prev btext _ rid cat _ _ _ e hr]
    exact ⟨rfl, rfl, rfl⟩

/-- Claim C6 witness: rollback on a concrete network failure; no rollback and
the partial publication kept on a concrete mid-stream read failure. -/
theorem C6_witness :
    (getStreamedResponse reqU [userMsg] false netFailEnv).rolledBack = true ∧
    (getStreamedResponse reqU [userMsg] false streamFailEnv).rolledBack = false ∧
    (getStreamedResponse reqU [userMsg] false streamFailEnv).result =
      Except.error readErr ∧
    (getStreamedResponse reqU [userMsg] false streamFailEnv).muts =
      reqU.messages ::
        (chunkFold reqU.messages ["He"] "" (initialAssistantMessage "r1" 0)).2.2 := by
  refine ⟨?_, ?_⟩
  · exact ((C6_rollback_only_network_and_status reqU [userMsg] netFailEnv).1).mpr
      (Or.inl ⟨netFailErr, rfl⟩)
  · exact (C6_rollback_only_network_and_status reqU [userMsg] streamFailEnv).2
      "" ["He"] readErr [] "r1" 0 rfl

set_option maxRecDepth 4000 in
/-- Claim C3 counterexample.  Splitting the function-call text so that the
first accumulator value is shorter than the marker (first chunk is the lone
opening brace) leaves that early accumulator in `content`: after completion
`function_call` is the structured object but `content` is the opening brace,
not the empty string — the claim fails for this split. -/
theorem C3_counterexample :
    joinAll ["\x7b", fcTextTail] = fcText ∧
    (getStreamedResponse reqU [] false splitFCEnv).result = Except.ok splitReplyMsg ∧
    splitReplyMsg.function_call = some (FCField.val fcParsed) ∧
    splitReplyMsg.content = "\x7b" ∧ "\x7b" ≠ "" :=
  ⟨rfl, rfl, rfl, rfl, by decide⟩

/-- Claim C3 (status: corrected; amended).  For every split of the
function-call text into chunks in which each accumulated prefix is empty or
already starts with the literal marker (in particular whenever the first
chunk carries the whole marker), stream completion yields a message whose
`function_call` is the structured object (name `f`, arguments the empty
JSON object) and whose `content` is the empty string. -/
theorem C3_function_call_stream (chunks : List String) (req : ChatRequest)
    (prev : List Message) (btext : String) (rid : String) (cat : Nat)
    (hjoin : joinAll chunks = fcText)
    (haccs : ∀ a ∈ chunkAccs "" chunks, a = "" ∨ strStartsWith a fcMarker = true) :
    ∃ m, (getStreamedResponse req prev false
        ⟨FetchOutcome.resp ⟨true, btext, some (List.map ReadEvent.chunk chunks)⟩,
          none, rid, cat⟩).result = Except.ok m ∧
      m.function_call = some (FCField.val fcParsed) ∧ m.content = "" := by
  have hr := readLoop_chunks_done req.messages chunks "" (initialAssistantMessage rid cat)
  have hcf := chunkFold_content req.messages chunks "" (initialAssistantMessage rid cat)
    rfl haccs
  have hacc1 : (chunkFold req.messages chunks "" (initialAssistantMessage rid cat)).1 =
      fcText := by
    rw [hcf.2, hjoin]
    rfl
  have hsw : strStartsWith
      (chunkFold req.messages chunks "" (initialAssistantMessage rid cat)).1
      fcMarker = true := by
    rw [hacc1]; rfl
  have hp : jsonParse
      (chunkFold req.messages chunks "" (initialAssistantMessage rid cat)).1 =
      some (Json.obj [("function_call", fcParsed)]) := by
    rw [hacc1]; rfl
  rw [engine_stream_fc req prev btext _ rid cat _ _ _ _ hr hsw hp]
  refine ⟨_, rfl, rfl, ?_⟩
  exact hcf.1

set_option maxRecDepth 4000 in
/-- Claim C3 witness: the unsplit stream delivering the whole text in one
chunk satisfies the amended hypothesis and produces the structured call with
empty content. -/
theorem C3_witness :
    ∃ m, (getStreamedResponse reqU [] false fcEnv).result = Except.ok m ∧
      m.function_call = some (FCField.val fcParsed) ∧ m.content = "" :=
  C3_function_call_stream [fcText] reqU [] "" "r1" 0 rfl (by decide)

/-- Claim C10 (status: confirmed).  Every publication of the message list
goes through `mutate`, which writes both the process-wide keyed store slot
and the observable cell; hence after `mutate` itself, after `setMessages`,
and after any settled exchange (whose publications — optimistic update,
per-chunk updates, post-stream republish and rollback — are all `mutate`
calls applied by the loop), the store entry for the session key equals the
observable message list. -/
theorem C10_store_cell_sync (key : String) :
    (∀ st msgs, (mutate key st msgs).store key = some (mutate key st msgs).cell) ∧
    (∀ st msgs,
      (setMessages key st msgs).store key = some (setMessages key st msgs).cell) ∧
    (∀ (handler : Option FunctionCallHandler) (envs : Nat → EngineEnv) (fuel : Nat)
        (req : ChatRequest) (st : OrchState),
      match triggerRequest handler key envs fuel req st with
      | some r => r.st.store key = some r.st.cell
      | none => True) := by
  refine ⟨?_, ?_, ?_⟩
  · intro st msgs
    simp [mutate]
  · intro st msgs
    simp [setMessages, mutate]
  · intro handler envs fuel req st
    rcases ht : triggerRequest handler key envs fuel req st with _ | r
    · trivial
    · exact triggerRequest_sync handler key envs fuel req st r ht

end UseChat
